import Mathlib

/-!
Shallow embedding of the SURFACEDETECTOR telemetry server
(src/server/server.js): the in-memory device registry (a JS `Map` from
`deviceId` to a mutable record object, line 67), the socket event
handlers (`connection` lines 101-109, `register` lines 111-132,
`sensor-data` lines 134-160, `disconnect` lines 162-173) and the
outputs they emit (`socket.emit`, `io.emit`, `appendCsv`).

Modelling decisions:
- JS objects stored in the registry are modelled with an explicit heap
  (a list of records addressed by position) so that the aliasing
  behaviour of `Array.from(devices.values())` is captured faithfully:
  `register` installs a fresh object, while `sensor-data` and
  `disconnect` mutate the stored object in place.
- JS numbers are modelled as integers; no claim depends on fractional
  or IEEE behaviour, and `Number(...)` returning NaN is modelled as
  `Option.none`.
- Timestamps (`new Date().toISOString()`) and synthesized identifiers
  (`dev_` ++ a uuid slice) are nondeterministic inputs of the program;
  they enter each handler as explicit `now` / `fresh` parameters.
- `socket.data.deviceId` is per-socket mutable state; it is modelled as
  a finite map from socket id to the bound value, stored in the server
  state.
-/

namespace Surface

/-- A JavaScript value as it appears in socket payloads and registry
fields: a number (modelled as an integer), a string, a boolean, `null`,
or `undefined` (the value of an absent field). -/
inductive JSVal where
  | vnum (n : Int)
  | vstr (s : String)
  | vbool (b : Bool)
  | vnull
  | vundef
deriving DecidableEq

/-- JS truthiness: `0`, the empty string, `false`, `null` and
`undefined` are falsy, everything else modelled here is truthy. -/
def truthy : JSVal → Bool
  | .vnum n => n != 0
  | .vstr s => s != ""
  | .vbool b => b
  | .vnull => false
  | .vundef => false

/-- Decimal digit value of a character, `none` for a non-digit. -/
def digitVal (c : Char) : Option Nat :=
  if c.isDigit then some (c.toNat - 48) else none

/-- Parse a nonempty all-digit character list as a natural number. -/
def parseNatChars : List Char → Option Nat
  | [] => none
  | [c] => digitVal c
  | c :: cs =>
    match digitVal c, parseNatChars cs with
    | some d, some n => some (d * 10 ^ cs.length + n)
    | _, _ => none

/-- JS string-to-number conversion on the strings the claims exercise:
the empty string converts to `0`, an optionally-signed decimal integer
string to its value, and anything else to `NaN` (`none`).  Fractional
literals and surrounding whitespace are outside the model; no claim
depends on them. -/
def parseJSNumber (s : String) : Option Int :=
  match s.data with
  | [] => some 0
  | '-' :: cs => (parseNatChars cs).map (fun n => -(n : Int))
  | cs => (parseNatChars cs).map (fun n => (n : Int))

/-- JS `Number(v)` coercion restricted to the values modelled here;
`none` stands for `NaN`.  `Number(null) = 0`, `Number(undefined) = NaN`,
`Number("") = 0`, and a non-numeric string gives `NaN`. -/
def toNumber : JSVal → Option Int
  | .vnum n => some n
  | .vstr s => parseJSNumber s
  | .vbool b => some (if b then 1 else 0)
  | .vnull => some 0
  | .vundef => none

/-- The acceleration-axis normalization of server.js lines 139-141:
`typeof v === 'number' ? v : Number(v) || 0`.  (When `Number(v)` is `0`
the `|| 0` also yields `0`, so `Option.getD 0` is exact.) -/
def coerceAxis : JSVal → Int
  | .vnum n => n
  | v => (toNumber v).getD 0

/-- The fields a `register` / `sensor-data` payload object may carry
(server.js lines 112 and 135); an omitted field reads as `undefined`. -/
structure Payload where
  deviceId : JSVal := .vundef
  time : JSVal := .vundef
  x : JSVal := .vundef
  y : JSVal := .vundef
  z : JSVal := .vundef
  lat : JSVal := .vundef
  lon : JSVal := .vundef
deriving DecidableEq

/-- One registry entry, the object
`{ deviceId, ip, socketId, lastSeen, lat, lon }` of server.js line 66:
`socketId` is `none` after a disconnect cleared it, `lat`/`lon` hold
whatever JS value the handlers stored (`null`, `''`, a number, ...). -/
structure DeviceRec where
  deviceId : JSVal
  ip : String
  socketId : Option String
  lastSeen : String
  lat : JSVal
  lon : JSVal
deriving DecidableEq

/-- The normalized sample row `{ time, x, y, z, lat, lon, ip }` built at
server.js line 145, handed to `appendCsv` and to the broadcast. -/
structure Row where
  time : JSVal
  x : Int
  y : Int
  z : Int
  lat : JSVal
  lon : JSVal
  ip : String
deriving DecidableEq

/-- The per-connection constants: `socket.id` and the resolved client
address (server.js line 102). -/
structure SocketInfo where
  sid : String
  ip : String
deriving DecidableEq

/-- The observable effects of the handlers: `socket.emit('registered')`,
`io.emit('devices')`, `socket.emit('devices')` to one admin,
`appendCsv` persistence, and `io.emit('sensor-data')`. -/
inductive Output where
  | registered (sid : String) (deviceId : JSVal)
  | devicesAll (recs : List DeviceRec)
  | devicesTo (sid : String) (recs : List DeviceRec)
  | persist (deviceId : JSVal) (row : Row)
  | sensorAll (deviceId : JSVal) (row : Row)
deriving DecidableEq

/-- `devices.get k`: first (and, in a JS `Map`, only) binding of `k` in
the association list that models the registry's key order. -/
def mapGet : List (JSVal × Nat) → JSVal → Option Nat
  | [], _ => none
  | q :: t, k => if q.1 = k then some q.2 else mapGet t k

/-- `devices.set k v`: replace the existing binding in place (a JS `Map`
keeps the original insertion position) or append a new binding. -/
def mapSet : List (JSVal × Nat) → JSVal → Nat → List (JSVal × Nat)
  | [], k, v => [(k, v)]
  | q :: t, k, v => if q.1 = k then (k, v) :: t else q :: mapSet t k v

/-- Lookup in the per-socket `socket.data.deviceId` store. -/
def bindGet : List (String × JSVal) → String → Option JSVal
  | [], _ => none
  | q :: t, s => if q.1 = s then some q.2 else bindGet t s

/-- Assignment `socket.data.deviceId = v` for socket `s`. -/
def bindSet : List (String × JSVal) → String → JSVal → List (String × JSVal)
  | [], s, v => [(s, v)]
  | q :: t, s, v => if q.1 = s then (s, v) :: t else q :: bindSet t s v

/-- The whole mutable server state: the heap of record objects, the
registry map `deviceId → heap address` (insertion ordered), and the
per-socket `socket.data.deviceId` bindings. -/
structure ServerState where
  heap : List DeviceRec
  registry : List (JSVal × Nat)
  binds : List (String × JSVal)
deriving DecidableEq

/-- The state before any connection: an empty registry. -/
def ServerState.empty : ServerState := ⟨[], [], []⟩

/-- Placeholder record used only to total the heap dereference; a
well-formed state never reaches it. -/
def defaultRec : DeviceRec := ⟨.vundef, "", none, "", .vundef, .vundef⟩

/-- `Array.from(devices.values())` read at full depth: the record values
in registry insertion order, dereferenced in the current heap. -/
def snapshotView (st : ServerState) : List DeviceRec :=
  st.registry.map (fun q => st.heap.getD q.2 defaultRec)

/-- `Array.from(devices.values())` as the data structure JS actually
returns: an array of references to the stored record objects. -/
def snapshotRefs (st : ServerState) : List Nat :=
  st.registry.map (fun q => q.2)

/-- What a holder of a previously returned snapshot observes later: each
retained reference dereferenced in the heap as it is now. -/
def derefSnapshot (heap : List DeviceRec) (refs : List Nat) : List DeviceRec :=
  refs.map (fun r => heap.getD r defaultRec)

/-- `devices.get k` followed by the object dereference. -/
def getRecord (st : ServerState) (k : JSVal) : Option DeviceRec :=
  (mapGet st.registry k).bind (fun r => st.heap[r]?)

/-- The value of `socket.data.deviceId` for socket `sid` (`undefined`
when never assigned). -/
def bindVal (st : ServerState) (sid : String) : JSVal :=
  (bindGet st.binds sid).getD (JSVal.vundef)

/-- The body of `io.on('connection')` before the event registrations
(server.js lines 101-109): a connection whose role query is `admin` is
immediately sent the current device list; no state changes. -/
def handleConnection (st : ServerState) (sock : SocketInfo) (role : String) : List Output :=
  if role = "admin" then [.devicesTo sock.sid (snapshotView st)] else []

/-- The wire value of the role tag the spec calls `observer`: the
observing dashboard (admin.html) connects with role query `admin`;
any other role value (the default is `device`) gets no snapshot. -/
def observerRole : String := "admin"

/-- The id resolution of server.js line 113:
`(payload && payload.deviceId) || fresh`.  It never consults the
socket's current binding. -/
def regId (payload : Option Payload) (fresh : String) : JSVal :=
  match payload with
  | some p => if truthy p.deviceId then p.deviceId else .vstr fresh
  | none => .vstr fresh

/-- The fresh entry object of server.js lines 116-124:
`existing = devices.get(deviceId) || {}` and then
`lat: existing.lat || null, lon: existing.lon || null`. -/
def regEntry (st : ServerState) (sock : SocketInfo) (deviceId : JSVal) (now : String) :
    DeviceRec :=
  let existingLat := match getRecord st deviceId with | some r => r.lat | none => .vundef
  let existingLon := match getRecord st deviceId with | some r => r.lon | none => .vundef
  { deviceId := deviceId, ip := sock.ip, socketId := some sock.sid, lastSeen := now,
    lat := if truthy existingLat then existingLat else .vnull,
    lon := if truthy existingLon then existingLon else .vnull }

/-- `socket.on('register')` (server.js lines 111-132).  The handler
resolves the id, builds a fresh record object, stores it under the id,
binds the id to the socket (`socket.data.deviceId = deviceId`), acks
`registered` to the sender and broadcasts the device list. -/
def handleRegister (st : ServerState) (sock : SocketInfo) (payload : Option Payload)
    (now fresh : String) : ServerState × List Output :=
  let deviceId := regId payload fresh
  let st' : ServerState :=
    { heap := st.heap ++ [regEntry st sock deviceId now],
      registry := mapSet st.registry deviceId st.heap.length,
      binds := bindSet st.binds sock.sid deviceId }
  (st', [.registered sock.sid deviceId, .devicesAll (snapshotView st')])

/-- The identity resolution of server.js line 137:
`socket.data.deviceId || payload.deviceId || fresh`.  Note that the
handler never writes the result back to `socket.data`. -/
def resolveSensorId (st : ServerState) (sock : SocketInfo) (p : Payload) (fresh : String) : JSVal :=
  if truthy (bindVal st sock.sid) then bindVal st sock.sid
  else if truthy p.deviceId then p.deviceId
  else .vstr fresh

/-- The normalized row of server.js lines 138-145: time defaults to the
receipt time, axes go through `coerceAxis`, and `lat`/`lon` become
`payload.lat || ''` / `payload.lon || ''`. -/
def sensorRow (sock : SocketInfo) (p : Payload) (now : String) : Row :=
  { time := if truthy p.time then p.time else .vstr now,
    x := coerceAxis p.x, y := coerceAxis p.y, z := coerceAxis p.z,
    lat := if truthy p.lat then p.lat else .vstr "",
    lon := if truthy p.lon then p.lon else .vstr "",
    ip := sock.ip }

/-- `socket.on('sensor-data')` (server.js lines 134-160).  A falsy
payload returns at once with no effect.  Otherwise the handler resolves
an id (without binding it), builds the row, persists it, updates the
existing record object in place (or appends a fresh one when the id is
unknown), and broadcasts the annotated row.  The inner `none` heap case
is unreachable from a well-formed state: a JS `Map` hit always yields
the stored object. -/
def handleSensorData (st : ServerState) (sock : SocketInfo) (payload : Option Payload)
    (now fresh : String) : ServerState × List Output :=
  match payload with
  | none => (st, [])
  | some p =>
    let deviceId := resolveSensorId st sock p fresh
    let row := sensorRow sock p now
    let st' :=
      match mapGet st.registry deviceId with
      | some ref =>
        match st.heap[ref]? with
        | some r =>
          { heap := st.heap.set ref
              { r with lastSeen := now, lat := row.lat, lon := row.lon,
                       socketId := some sock.sid },
            registry := mapSet st.registry deviceId ref,
            binds := st.binds }
        | none => st
      | none =>
        { heap := st.heap ++ [{ deviceId := deviceId, ip := sock.ip,
                                socketId := some sock.sid, lastSeen := now,
                                lat := row.lat, lon := row.lon }],
          registry := mapSet st.registry deviceId st.heap.length,
          binds := st.binds }
    (st', [.persist deviceId row, .sensorAll deviceId row])

/-- `socket.on('disconnect')` (server.js lines 162-173).  If the
socket's bound id is truthy and present in the registry, the stored
record object is mutated in place (`socketId = null`, `lastSeen`
updated) and the device list is broadcast; otherwise nothing happens.
The inner `none` heap case is unreachable from a well-formed state. -/
def handleDisconnect (st : ServerState) (sock : SocketInfo) (now : String) :
    ServerState × List Output :=
  let deviceId := bindVal st sock.sid
  if truthy deviceId then
    match mapGet st.registry deviceId with
    | some ref =>
      match st.heap[ref]? with
      | some r =>
        let st' : ServerState :=
          { heap := st.heap.set ref { r with socketId := none, lastSeen := now },
            registry := mapSet st.registry deviceId ref,
            binds := st.binds }
        (st', [.devicesAll (snapshotView st')])
      | none => (st, [])
    | none => (st, [])
  else (st, [])

/-- A transport event handed to the server, with the nondeterministic
inputs (timestamps, synthesized ids) made explicit. -/
inductive Event where
  | connect (sid ip role : String)
  | register (sid ip : String) (payload : Option Payload) (now fresh : String)
  | sensor (sid ip : String) (payload : Option Payload) (now fresh : String)
  | disconnect (sid ip : String) (now : String)
deriving DecidableEq

/-- Dispatch one event to its handler. -/
def step (st : ServerState) : Event → ServerState × List Output
  | .connect sid ip role => (st, handleConnection st ⟨sid, ip⟩ role)
  | .register sid ip payload now fresh => handleRegister st ⟨sid, ip⟩ payload now fresh
  | .sensor sid ip payload now fresh => handleSensorData st ⟨sid, ip⟩ payload now fresh
  | .disconnect sid ip now => handleDisconnect st ⟨sid, ip⟩ now

/-- Process a sequence of events, keeping only the final state. -/
def run (st : ServerState) (es : List Event) : ServerState :=
  es.foldl (fun s e => (step s e).1) st

/-- Well-formedness of a server state: registry keys are pairwise
distinct (a JS `Map` holds one binding per key) and every stored
reference points into the heap. -/
@[reducible] def WF (st : ServerState) : Prop :=
  (st.registry.map (fun q => q.1)).Nodup ∧ ∀ q ∈ st.registry, q.2 < st.heap.length

/-- Number of registry bindings whose key is `k`. -/
def countKey (m : List (JSVal × Nat)) (k : JSVal) : Nat :=
  m.countP (fun q => decide (q.1 = k))

/-! ### Association-list lemmas -/

theorem mapGet_mapSet_self (m : List (JSVal × Nat)) (k : JSVal) (v : Nat) :
    mapGet (mapSet m k v) k = some v := by
  induction m with
  | nil => simp [mapSet, mapGet]
  | cons q t ih =>
    by_cases h : q.1 = k
    · simp [mapSet, h, mapGet]
    · simp [mapSet, h, mapGet, ih]

theorem mem_mapSet {m : List (JSVal × Nat)} {k : JSVal} {v : Nat} {q : JSVal × Nat}
    (h : q ∈ mapSet m k v) : q ∈ m ∨ q = (k, v) := by
  induction m with
  | nil =>
    simp [mapSet] at h
    exact Or.inr h
  | cons p t ih =>
    by_cases hp : p.1 = k
    · simp [mapSet, hp] at h
      rcases h with h | h
      · exact Or.inr h
      · exact Or.inl (List.mem_cons_of_mem _ h)
    · simp [mapSet, hp] at h
      rcases h with h | h
      · exact Or.inl (by simp [h])
      · rcases ih h with h' | h'
        · exact Or.inl (List.mem_cons_of_mem _ h')
        · exact Or.inr h'

theorem mem_of_mapGet {m : List (JSVal × Nat)} {k : JSVal} {v : Nat}
    (h : mapGet m k = some v) : (k, v) ∈ m := by
  induction m with
  | nil => simp [mapGet] at h
  | cons q t ih =>
    by_cases hq : q.1 = k
    · simp [mapGet, hq] at h
      have : q = (k, v) := by cases q; simp_all
      simp [this]
    · simp [mapGet, hq] at h
      exact List.mem_cons_of_mem _ (ih h)

theorem mem_keys_mapSet {m : List (JSVal × Nat)} {k : JSVal} {v : Nat} {a : JSVal}
    (h : a ∈ (mapSet m k v).map (fun q => q.1)) :
    a ∈ m.map (fun q => q.1) ∨ a = k := by
  rcases List.mem_map.1 h with ⟨q, hq, rfl⟩
  rcases mem_mapSet hq with h' | h'
  · exact Or.inl (List.mem_map_of_mem _ h')
  · exact Or.inr (by rw [h'])

theorem nodup_keys_mapSet {m : List (JSVal × Nat)} {k : JSVal} {v : Nat}
    (h : (m.map (fun q => q.1)).Nodup) :
    ((mapSet m k v).map (fun q => q.1)).Nodup := by
  induction m with
  | nil => simp [mapSet]
  | cons p t ih =>
    simp only [List.map_cons, List.nodup_cons] at h
    by_cases hp : p.1 = k
    · rw [show mapSet (p :: t) k v = (k, v) :: t by simp [mapSet, hp]]
      simp only [List.map_cons, List.nodup_cons]
      exact ⟨hp ▸ h.1, h.2⟩
    · rw [show mapSet (p :: t) k v = p :: mapSet t k v by simp [mapSet, hp]]
      simp only [List.map_cons, List.nodup_cons]
      refine ⟨fun hmem => ?_, ih h.2⟩
      rcases mem_keys_mapSet hmem with h' | h'
      · exact h.1 h'
      · exact hp h'

theorem countKey_eq_zero_of_not_mem {m : List (JSVal × Nat)} {k : JSVal}
    (h : k ∉ m.map (fun q => q.1)) : countKey m k = 0 := by
  induction m with
  | nil => rfl
  | cons q t ih =>
    rw [List.map_cons] at h
    have hq : ¬ q.1 = k := fun hqk => h (by rw [← hqk]; exact List.mem_cons_self _ _)
    have ht : k ∉ t.map (fun q => q.1) := fun hmem => h (List.mem_cons_of_mem _ hmem)
    have hz := ih ht
    simp [countKey, List.countP_cons, hq] at hz ⊢
    exact hz

theorem countKey_mapSet_self {m : List (JSVal × Nat)} (k : JSVal) (v : Nat)
    (h : (m.map (fun q => q.1)).Nodup) : countKey (mapSet m k v) k = 1 := by
  induction m with
  | nil => simp [mapSet, countKey]
  | cons p t ih =>
    simp only [List.map_cons, List.nodup_cons] at h
    by_cases hp : p.1 = k
    · rw [show mapSet (p :: t) k v = (k, v) :: t by simp [mapSet, hp]]
      have ht : countKey t k = 0 := countKey_eq_zero_of_not_mem (hp ▸ h.1)
      simp [countKey, List.countP_cons] at ht ⊢
      exact ht
    · rw [show mapSet (p :: t) k v = p :: mapSet t k v by simp [mapSet, hp]]
      have := ih h.2
      simp [countKey, List.countP_cons, hp] at this ⊢
      exact this

theorem bindGet_bindSet_ne {bs : List (String × JSVal)} {s t : String} {v : JSVal}
    (h : s ≠ t) : bindGet (bindSet bs s v) t = bindGet bs t := by
  induction bs with
  | nil => simp [bindSet, bindGet, h]
  | cons q bs ih =>
    by_cases hq : q.1 = s
    · rw [show bindSet (q :: bs) s v = (s, v) :: bs by simp [bindSet, hq]]
      simp [bindGet, h, hq]
    · rw [show bindSet (q :: bs) s v = q :: bindSet bs s v by simp [bindSet, hq]]
      simp [bindGet, ih]

theorem getElem?_set_self_of_lt {α : Type} (l : List α) (i : Nat) (a : α)
    (h : i < l.length) : (l.set i a)[i]? = some a := by
  simp [List.getElem?_set_self', List.getElem?_eq_getElem h]

/-! ### Handler postcondition and preservation lemmas -/

theorem register_post (st : ServerState) (sock : SocketInfo) (payload : Option Payload)
    (now fresh : String) :
    getRecord (handleRegister st sock payload now fresh).1 (regId payload fresh)
      = some (regEntry st sock (regId payload fresh) now) := by
  simp [handleRegister, getRecord, mapGet_mapSet_self, List.getElem?_concat_length]

theorem binds_register (st : ServerState) (sock : SocketInfo) (payload : Option Payload)
    (now fresh : String) :
    (handleRegister st sock payload now fresh).1.binds
      = bindSet st.binds sock.sid (regId payload fresh) := rfl

theorem countKey_register (st : ServerState) (sock : SocketInfo) (payload : Option Payload)
    (now fresh : String) (h : (st.registry.map (fun q => q.1)).Nodup) :
    countKey (handleRegister st sock payload now fresh).1.registry (regId payload fresh) = 1 := by
  simp only [handleRegister]
  exact countKey_mapSet_self _ _ h

theorem WF_register (st : ServerState) (sock : SocketInfo) (payload : Option Payload)
    (now fresh : String) (h : WF st) : WF (handleRegister st sock payload now fresh).1 := by
  obtain ⟨h1, h2⟩ := h
  refine ⟨nodup_keys_mapSet h1, ?_⟩
  intro q hq
  simp only [handleRegister] at hq ⊢
  rcases mem_mapSet hq with h' | h'
  · calc q.2 < st.heap.length := h2 q h'
      _ ≤ (st.heap ++ [regEntry st sock (regId payload fresh) now]).length := by simp
  · simp [h']

theorem binds_handleSensorData (st : ServerState) (sock : SocketInfo)
    (payload : Option Payload) (now fresh : String) :
    (handleSensorData st sock payload now fresh).1.binds = st.binds := by
  cases payload with
  | none => rfl
  | some p =>
    simp only [handleSensorData]
    split
    · split <;> rfl
    · rfl

theorem binds_handleDisconnect (st : ServerState) (sock : SocketInfo) (now : String) :
    (handleDisconnect st sock now).1.binds = st.binds := by
  simp only [handleDisconnect]
  split
  · split
    · split <;> rfl
    · rfl
  · rfl

/-! ### Claims -/

/-- The nondeterministic per-call inputs of one `register` event: the
connection (`socket.id`, resolved address) plus the timestamp and the
synthesized-id input of that call. -/
structure RegCall where
  sid : String
  ip : String
  now : String
  fresh : String
deriving DecidableEq

/-- Process one `register` event whose payload carries `deviceId = d`. -/
def regCall (d : String) (st : ServerState) (c : RegCall) : ServerState :=
  (handleRegister st ⟨c.sid, c.ip⟩ (some { deviceId := .vstr d }) c.now c.fresh).1

theorem WF_regCall_fold (d : String) (st : ServerState) (regs : List RegCall)
    (h : WF st) : WF (regs.foldl (regCall d) st) := by
  induction regs generalizing st with
  | nil => exact h
  | cons c cs ih => exact ih _ (WF_register _ _ _ _ _ h)

/-- C1: after any sequence of `register` events carrying the same
`deviceId`, arriving from any connections, the registry holds exactly
one record keyed by that id, and its connection handle (`socketId`) is
the handle of the connection whose `register` was processed last. -/
theorem C1_register_last_wins (st : ServerState) (hwf : WF st) (d : String)
    (hd : d ≠ "") (regs : List RegCall) (r : RegCall) :
    countKey ((regs ++ [r]).foldl (regCall d) st).registry (.vstr d) = 1 ∧
    (getRecord ((regs ++ [r]).foldl (regCall d) st) (.vstr d)).map
        (fun rec => rec.socketId) = some (some r.sid) := by
  have hwf' := WF_regCall_fold d st regs hwf
  rw [List.foldl_append]
  simp only [List.foldl_cons, List.foldl_nil]
  have hid : regId (some { deviceId := .vstr d }) r.fresh = .vstr d := by
    simp [regId, truthy, hd]
  constructor
  · have hc := countKey_register (regs.foldl (regCall d) st) ⟨r.sid, r.ip⟩
      (some { deviceId := .vstr d }) r.now r.fresh hwf'.1
    rw [hid] at hc
    simpa [regCall] using hc
  · have hp := register_post (regs.foldl (regCall d) st) ⟨r.sid, r.ip⟩
      (some { deviceId := .vstr d }) r.now r.fresh
    rw [hid] at hp
    simp [regCall, hp, regEntry]

/-- C1 applied at a concrete input: two registrations of `A` from two
connections leave one record carrying the second handle. -/
theorem C1_register_last_wins_witness :
    WF ServerState.empty ∧ "A" ≠ "" ∧
    (countKey ((([⟨"s0", "ip0", "t0", "f0"⟩] ++ [⟨"s1", "ip1", "t1", "f1"⟩] :
            List RegCall)).foldl (regCall "A") ServerState.empty).registry (.vstr "A") = 1 ∧
      (getRecord ((([⟨"s0", "ip0", "t0", "f0"⟩] ++ [⟨"s1", "ip1", "t1", "f1"⟩] :
            List RegCall)).foldl (regCall "A") ServerState.empty) (.vstr "A")).map
          (fun rec => rec.socketId) = some (some "s1")) :=
  ⟨by decide, by decide,
    C1_register_last_wins ServerState.empty (by decide) "A" (by decide)
      [⟨"s0", "ip0", "t0", "f0"⟩] ⟨"s1", "ip1", "t1", "f1"⟩⟩

/-- C2: the code diverges from the claim at this input.  After `s1`
registers `A` and `s2` registers `A` (superseding `s1`), the record for
`A` carries the newer handle `s2`.  The claim — spec 4.1's
handle-matching `markOffline`, restated by 5's race rule and 8's
no-op-if-superseded testable property — requires the stale `s1`
disconnect to leave the record untouched.  The code instead looks the
record up by the socket's bound id and clears it unconditionally
(server.js lines 165-170): `socketId` becomes `null` and `lastSeen` is
bumped to the disconnect time, so a still-connected device is shown
offline. -/
theorem C2_stale_disconnect_divergence :
    (getRecord
        (run ServerState.empty
          [.register "s1" "ip1" (some { deviceId := .vstr "A" }) "t1" "f1",
           .register "s2" "ip2" (some { deviceId := .vstr "A" }) "t2" "f2"])
        (.vstr "A")).map (fun rec => (rec.socketId, rec.lastSeen))
      = some (some "s2", "t2") ∧
    (getRecord
        (run ServerState.empty
          [.register "s1" "ip1" (some { deviceId := .vstr "A" }) "t1" "f1",
           .register "s2" "ip2" (some { deviceId := .vstr "A" }) "t2" "f2",
           .disconnect "s1" "ip1" "t3"])
        (.vstr "A")).map (fun rec => (rec.socketId, rec.lastSeen))
      = some (none, "t3") ∧
    (none : Option String) ≠ some "s2" := by decide

/-- Full characterization of `handleDisconnect`: it locates the record
by the socket's bound `deviceId`, not by comparing stored handles.
When the bound id is falsy, or absent from the registry, nothing
happens; when it is present, the record's `socketId` is cleared to
`null` and `lastSeen` updated unconditionally — with no hypothesis on
the stored handle, so also when it already belongs to a newer
connection — and the device list is broadcast. -/
theorem disconnect_clears_bound (st : ServerState) (sock : SocketInfo) (now : String) :
    (truthy (bindVal st sock.sid) = false → handleDisconnect st sock now = (st, [])) ∧
    (mapGet st.registry (bindVal st sock.sid) = none →
      handleDisconnect st sock now = (st, [])) ∧
    (∀ ref r, mapGet st.registry (bindVal st sock.sid) = some ref →
      st.heap[ref]? = some r →
      truthy (bindVal st sock.sid) = true →
      (getRecord (handleDisconnect st sock now).1 (bindVal st sock.sid)).map
          (fun rec => (rec.socketId, rec.lastSeen)) = some (none, now) ∧
      (handleDisconnect st sock now).2
        = [.devicesAll (snapshotView (handleDisconnect st sock now).1)]) := by
  refine ⟨fun h => ?_, fun h => ?_, fun ref r hm hh ht => ?_⟩
  · simp [handleDisconnect, h]
  · by_cases ht : truthy (bindVal st sock.sid)
    · simp [handleDisconnect, ht, h]
    · simp [handleDisconnect, ht]
  · have hlt : ref < st.heap.length := (List.getElem?_eq_some.mp hh).1
    have hst : handleDisconnect st sock now
        = ({ heap := st.heap.set ref { r with socketId := none, lastSeen := now },
             registry := mapSet st.registry (bindVal st sock.sid) ref,
             binds := st.binds },
           [.devicesAll (snapshotView
             { heap := st.heap.set ref { r with socketId := none, lastSeen := now },
               registry := mapSet st.registry (bindVal st sock.sid) ref,
               binds := st.binds })]) := by
      simp [handleDisconnect, ht, hm, hh]
    rw [hst]
    exact ⟨by simp [getRecord, mapGet_mapSet_self, getElem?_set_self_of_lt _ _ _ hlt], rfl⟩

/-- After any `sensor-data` event with a present payload, the record
stored under the resolved id holds the row's `lat`/`lon`, the sender's
handle, and the receipt time — whether the record was updated in place
or freshly created. -/
theorem sensor_record_post (st : ServerState) (sock : SocketInfo) (p : Payload)
    (now fresh : String) (h : WF st) :
    (getRecord (handleSensorData st sock (some p) now fresh).1
        (resolveSensorId st sock p fresh)).map
        (fun rec => (rec.lat, rec.lon, rec.socketId, rec.lastSeen))
      = some ((sensorRow sock p now).lat, (sensorRow sock p now).lon, some sock.sid, now) := by
  simp only [handleSensorData]
  rcases hm : mapGet st.registry (resolveSensorId st sock p fresh) with _ | ref
  · simp [getRecord, mapGet_mapSet_self, List.getElem?_concat_length]
  · have hlt : ref < st.heap.length := h.2 _ (mem_of_mapGet hm)
    rcases hh : st.heap[ref]? with _ | r
    · rw [List.getElem?_eq_getElem hlt] at hh
      exact absurd hh (by simp)
    · simp only [hh]
      simp [getRecord, mapGet_mapSet_self, getElem?_set_self_of_lt _ _ _ hlt]

/-- C3 counterexample: on one connection, a sample for `A` at
`(10, 20)` followed by a sample without coordinates leaves the record's
coordinates as the empty-string sentinel, not the earlier `(10, 20)`,
so the next `devices` broadcast reports the cleared value. -/
theorem C3_counterexample :
    (getRecord
        (run ServerState.empty
          [.sensor "s1" "ip" (some { deviceId := .vstr "A", lat := .vnum 10, lon := .vnum 20 })
             "t1" "f1",
           .sensor "s1" "ip" (some { deviceId := .vstr "A" }) "t2" "f2"])
        (.vstr "A")).map (fun rec => (rec.lat, rec.lon))
      = some (.vstr "", .vstr "") ∧
    (JSVal.vstr "") ≠ .vnum 10 := by decide

/-- C3 (amended): a `sensor-data` event unconditionally overwrites the
record's stored coordinates with the row's `lat`/`lon`; when the
payload's coordinates are absent these are the empty-string sentinel,
so the previously stored coordinates are replaced, not preserved. -/
theorem C3_missing_position_overwrites (st : ServerState) (sock : SocketInfo)
    (p : Payload) (now fresh : String) (h : WF st)
    (hlat : truthy p.lat = false) (hlon : truthy p.lon = false) :
    (getRecord (handleSensorData st sock (some p) now fresh).1
        (resolveSensorId st sock p fresh)).map (fun rec => (rec.lat, rec.lon))
      = some (.vstr "", .vstr "") := by
  have hp := sensor_record_post st sock p now fresh h
  rcases hgr : getRecord (handleSensorData st sock (some p) now fresh).1
      (resolveSensorId st sock p fresh) with _ | rec
  · simp [hgr] at hp
  · simp only [hgr, Option.map_some] at hp ⊢
    have h1 := congrArg Prod.fst (Option.some.inj hp)
    have h2 := congrArg (fun q => q.2.1) (Option.some.inj hp)
    simp only at h1 h2
    simp [h1, h2, sensorRow, hlat, hlon]

/-- C3 (amended) applied at a concrete input. -/
theorem C3_missing_position_overwrites_witness :
    WF ServerState.empty ∧
    truthy ({ deviceId := .vstr "A" } : Payload).lat = false ∧
    truthy ({ deviceId := .vstr "A" } : Payload).lon = false ∧
    (getRecord (handleSensorData ServerState.empty ⟨"s1", "ip"⟩
        (some { deviceId := .vstr "A" }) "t2" "f2").1
        (resolveSensorId ServerState.empty ⟨"s1", "ip"⟩ { deviceId := .vstr "A" } "f2")).map
        (fun rec => (rec.lat, rec.lon)) = some (.vstr "", .vstr "") :=
  ⟨by decide, by decide, by decide,
    C3_missing_position_overwrites ServerState.empty ⟨"s1", "ip"⟩ { deviceId := .vstr "A" }
      "t2" "f2" (by decide) (by decide) (by decide)⟩

/-- C4 counterexample: a connection that never registers sends a sample
claiming `deviceId = A` and then one claiming `deviceId = B`.  The
claim says the second message is still attributed to the
first-resolved `A`; the code attributes it to `B`, because `sensor-data`
never writes the binding. -/
theorem C4_counterexample :
    (handleSensorData
        (handleSensorData ServerState.empty ⟨"s1", "ip"⟩
          (some { deviceId := .vstr "A" }) "t1" "f1").1
        ⟨"s1", "ip"⟩ (some { deviceId := .vstr "B" }) "t2" "f2").2
      = [.persist (.vstr "B") ⟨.vstr "t2", 0, 0, 0, .vstr "", .vstr "", "ip"⟩,
         .sensorAll (.vstr "B") ⟨.vstr "t2", 0, 0, 0, .vstr "", .vstr "", "ip"⟩] ∧
    resolveSensorId
        (handleSensorData ServerState.empty ⟨"s1", "ip"⟩
          (some { deviceId := .vstr "A" }) "t1" "f1").1
        ⟨"s1", "ip"⟩ { deviceId := .vstr "B" } "f2" = .vstr "B" ∧
    (JSVal.vstr "B") ≠ .vstr "A" := by decide

/-- C4 (amended): only `register` writes the per-connection binding —
and it (re)binds the id resolved from its own payload on every call —
while `sensor-data` never writes it; when the connection does have a
truthy binding, a `sensor-data` message is attributed to the bound id
regardless of the id its payload claims. -/
theorem C4_binding_only_on_register (st : ServerState) (sock : SocketInfo)
    (p : Payload) (payload : Option Payload) (now fresh : String)
    (hb : truthy (bindVal st sock.sid) = true) :
    (handleRegister st sock payload now fresh).1.binds
      = bindSet st.binds sock.sid (regId payload fresh) ∧
    (handleSensorData st sock (some p) now fresh).1.binds = st.binds ∧
    (handleSensorData st sock (some p) now fresh).2
      = [.persist (bindVal st sock.sid) (sensorRow sock p now),
         .sensorAll (bindVal st sock.sid) (sensorRow sock p now)] := by
  refine ⟨binds_register st sock payload now fresh,
    binds_handleSensorData st sock (some p) now fresh, ?_⟩
  have hid : resolveSensorId st sock p fresh = bindVal st sock.sid := by
    simp [resolveSensorId, hb]
  have houts : (handleSensorData st sock (some p) now fresh).2
      = [.persist (resolveSensorId st sock p fresh) (sensorRow sock p now),
         .sensorAll (resolveSensorId st sock p fresh) (sensorRow sock p now)] := rfl
  rw [houts, hid]

/-- C4 (amended) applied at a concrete input: socket `s1` is bound to
`A`, and a sample claiming `B` is still attributed to `A`. -/
theorem C4_binding_only_on_register_witness :
    truthy (bindVal (⟨[], [], [("s1", .vstr "A")]⟩ : ServerState) "s1") = true ∧
    (handleSensorData (⟨[], [], [("s1", .vstr "A")]⟩ : ServerState) ⟨"s1", "ip"⟩
        (some { deviceId := .vstr "B" }) "t2" "f2").2
      = [.persist (bindVal (⟨[], [], [("s1", .vstr "A")]⟩ : ServerState) "s1")
           (sensorRow ⟨"s1", "ip"⟩ { deviceId := .vstr "B" } "t2"),
         .sensorAll (bindVal (⟨[], [], [("s1", .vstr "A")]⟩ : ServerState) "s1")
           (sensorRow ⟨"s1", "ip"⟩ { deviceId := .vstr "B" } "t2")] :=
  ⟨by decide,
    (C4_binding_only_on_register (⟨[], [], [("s1", .vstr "A")]⟩ : ServerState) ⟨"s1", "ip"⟩
      { deviceId := .vstr "B" } (some { deviceId := .vstr "B" }) "t2" "f2" (by decide)).2.2⟩

/-- C5: a wholly absent payload produces no state change and no output;
an acceleration axis that is `null` or does not convert to a number is
coerced to `0` — in particular the malformed sample `x = "abc"`,
`y = null`, `z = undefined` normalizes to `(0, 0, 0)` — and a present
payload is always still persisted and broadcast. -/
theorem C5_axis_coercion (st : ServerState) (sock : SocketInfo) (p : Payload)
    (now fresh : String) (v : JSVal)
    (hv : v = .vnull ∨ toNumber v = none) :
    handleSensorData st sock none now fresh = (st, []) ∧
    coerceAxis v = 0 ∧
    ((sensorRow sock { x := .vstr "abc", y := .vnull, z := .vundef } now).x = 0 ∧
     (sensorRow sock { x := .vstr "abc", y := .vnull, z := .vundef } now).y = 0 ∧
     (sensorRow sock { x := .vstr "abc", y := .vnull, z := .vundef } now).z = 0) ∧
    (handleSensorData st sock (some p) now fresh).2
      = [.persist (resolveSensorId st sock p fresh) (sensorRow sock p now),
         .sensorAll (resolveSensorId st sock p fresh) (sensorRow sock p now)] := by
  refine ⟨rfl, ?_, ⟨?_, ?_, ?_⟩, rfl⟩
  · rcases hv with h | h
    · simp [h, coerceAxis, toNumber]
    · cases v <;> simp_all [coerceAxis, toNumber]
  · show coerceAxis (.vstr "abc") = 0
    decide
  · show coerceAxis (.vnull) = 0
    decide
  · show coerceAxis (.vundef) = 0
    decide

/-- C5 applied at a concrete input: `"abc"` does not convert, each
malformed axis coerces to `0`, and the absent payload is a no-op. -/
theorem C5_axis_coercion_witness :
    toNumber (.vstr "abc") = none ∧ coerceAxis (.vstr "abc") = 0 ∧
    handleSensorData ServerState.empty ⟨"s1", "ip"⟩ none "t1" "f1"
      = (ServerState.empty, []) :=
  ⟨by decide,
    (C5_axis_coercion ServerState.empty ⟨"s1", "ip"⟩ {} "t1" "f1" (.vstr "abc")
      (Or.inr (by decide))).2.1,
    (C5_axis_coercion ServerState.empty ⟨"s1", "ip"⟩ {} "t1" "f1" (.vstr "abc")
      (Or.inr (by decide))).1⟩

/-- C6 counterexample: for a sample without `lat`/`lon`, the row handed
to persistence and broadcast carries the empty-string sentinel in the
position fields — a present sentinel value, not the absent position
the claim requires. -/
theorem C6_counterexample :
    (handleSensorData ServerState.empty ⟨"s1", "ip"⟩ (some { deviceId := .vstr "A" })
        "t1" "f1").2
      = [.persist (.vstr "A") ⟨.vstr "t1", 0, 0, 0, .vstr "", .vstr "", "ip"⟩,
         .sensorAll (.vstr "A") ⟨.vstr "t1", 0, 0, 0, .vstr "", .vstr "", "ip"⟩] ∧
    (JSVal.vstr "") ≠ .vundef := by decide

/-- C6 (amended): when the payload's `lat`/`lon` are absent (or falsy),
the constructed row — as persisted and as broadcast — carries the
empty-string sentinel `''` in its position fields. -/
theorem C6_missing_position_sentinel (st : ServerState) (sock : SocketInfo)
    (p : Payload) (now fresh : String)
    (hlat : truthy p.lat = false) (hlon : truthy p.lon = false) :
    (sensorRow sock p now).lat = .vstr "" ∧
    (sensorRow sock p now).lon = .vstr "" ∧
    (handleSensorData st sock (some p) now fresh).2
      = [.persist (resolveSensorId st sock p fresh) (sensorRow sock p now),
         .sensorAll (resolveSensorId st sock p fresh) (sensorRow sock p now)] :=
  ⟨by simp [sensorRow, hlat], by simp [sensorRow, hlon], rfl⟩

/-- C6 (amended) applied at a concrete input. -/
theorem C6_missing_position_sentinel_witness :
    truthy ({ deviceId := .vstr "A" } : Payload).lat = false ∧
    truthy ({ deviceId := .vstr "A" } : Payload).lon = false ∧
    (sensorRow ⟨"s1", "ip"⟩ { deviceId := .vstr "A" } "t1").lat = .vstr "" :=
  ⟨by decide, by decide,
    (C6_missing_position_sentinel ServerState.empty ⟨"s1", "ip"⟩ { deviceId := .vstr "A" }
      "t1" "f1" (by decide) (by decide)).1⟩

/-- C7: a fresh connection tagged with the observer role (wire value
`admin`, the tag the observing dashboard connects with) is immediately
sent the current registry snapshot as a `devices` message addressed to
that one connection — the emission happens synchronously inside the
connection handler, before any later event is processed — and the
snapshot lists one entry per registry record, so a late-joining
observer of a non-empty registry never sees an empty view; the default
`device` role receives nothing. -/
theorem C7_observer_immediate_snapshot (st : ServerState) (sock : SocketInfo) :
    handleConnection st sock observerRole = [.devicesTo sock.sid (snapshotView st)] ∧
    (snapshotView st).length = st.registry.length ∧
    handleConnection st sock "device" = [] := by
  refine ⟨rfl, ?_, rfl⟩
  simp [snapshotView]

/-- C8 counterexample: a record for `A` whose stored coordinates are
the valid coordinate `0` is re-registered; `existing.lat || null`
(server.js line 122) maps the falsy `0` to `null`, so `lastPosition` is
not left exactly as it was. -/
theorem C8_counterexample :
    (getRecord
        (handleRegister
          ⟨[⟨.vstr "A", "ip0", some "s0", "t0", .vnum 0, .vnum 0⟩], [(.vstr "A", 0)], []⟩
          ⟨"s1", "ip1"⟩ (some { deviceId := .vstr "A" }) "t1" "f1").1
        (.vstr "A")).map (fun rec => (rec.lat, rec.lon))
      = some (.vnull, .vnull) ∧
    (JSVal.vnull) ≠ .vnum 0 := by decide

/-- C8 (amended): a `register` for an already-known id installs a fresh
record carrying the caller's `sourceAddress`, `connectionHandle` and
`lastSeenAt`; the stored coordinates are preserved when truthy, while
falsy stored coordinates (`0`, `''`, `null`) are normalized to `null`
by `existing.lat || null`. -/
theorem C8_reregister_updates (st : ServerState) (sock : SocketInfo) (p : Payload)
    (now fresh : String) (hd : truthy p.deviceId = true) (r : DeviceRec)
    (hr : getRecord st p.deviceId = some r) :
    getRecord (handleRegister st sock (some p) now fresh).1 p.deviceId
      = some { deviceId := p.deviceId, ip := sock.ip, socketId := some sock.sid,
               lastSeen := now,
               lat := if truthy r.lat then r.lat else .vnull,
               lon := if truthy r.lon then r.lon else .vnull } := by
  have hid : regId (some p) fresh = p.deviceId := by simp [regId, hd]
  have hp := register_post st sock (some p) now fresh
  rw [hid] at hp
  rw [hp]
  simp [regEntry, hr]

/-- C8 (amended) applied at a concrete input with truthy stored
coordinates, which the re-registration preserves. -/
theorem C8_reregister_updates_witness :
    truthy ({ deviceId := .vstr "A" } : Payload).deviceId = true ∧
    getRecord (⟨[⟨.vstr "A", "ip0", some "s0", "t0", .vstr "7", .vstr "8"⟩],
        [(.vstr "A", 0)], []⟩ : ServerState) (.vstr "A")
      = some ⟨.vstr "A", "ip0", some "s0", "t0", .vstr "7", .vstr "8"⟩ ∧
    getRecord (handleRegister
        (⟨[⟨.vstr "A", "ip0", some "s0", "t0", .vstr "7", .vstr "8"⟩],
          [(.vstr "A", 0)], []⟩ : ServerState)
        ⟨"s1", "ip1"⟩ (some { deviceId := .vstr "A" }) "t1" "f1").1 (.vstr "A")
      = some { deviceId := .vstr "A", ip := "ip1", socketId := some "s1", lastSeen := "t1",
               lat := if truthy (JSVal.vstr "7") then .vstr "7" else .vnull,
               lon := if truthy (JSVal.vstr "8") then .vstr "8" else .vnull } :=
  ⟨by decide, by decide,
    C8_reregister_updates
      (⟨[⟨.vstr "A", "ip0", some "s0", "t0", .vstr "7", .vstr "8"⟩],
        [(.vstr "A", 0)], []⟩ : ServerState)
      ⟨"s1", "ip1"⟩ { deviceId := .vstr "A" } "t1" "f1" (by decide)
      ⟨.vstr "A", "ip0", some "s0", "t0", .vstr "7", .vstr "8"⟩ (by decide)⟩

/-- C9 counterexample: a snapshot (the reference array
`Array.from(devices.values())`) is taken, then a `sensor-data` event
mutates the stored record object in place; dereferencing the
previously returned snapshot now shows the mutated record, so the
mutation is observable through it. -/
theorem C9_counterexample :
    derefSnapshot
        ((handleSensorData
            ⟨[⟨.vstr "A", "ip1", some "s1", "t1", .vnull, .vnull⟩], [(.vstr "A", 0)],
              [("s1", .vstr "A")]⟩
            ⟨"s1", "ip1"⟩ (some { deviceId := .vstr "A", lat := .vnum 5, lon := .vnum 6 })
            "t2" "f2").1.heap)
        (snapshotRefs
          ⟨[⟨.vstr "A", "ip1", some "s1", "t1", .vnull, .vnull⟩], [(.vstr "A", 0)],
            [("s1", .vstr "A")]⟩)
      ≠ derefSnapshot
          [⟨.vstr "A", "ip1", some "s1", "t1", .vnull, .vnull⟩]
          (snapshotRefs
            ⟨[⟨.vstr "A", "ip1", some "s1", "t1", .vnull, .vnull⟩], [(.vstr "A", 0)],
              [("s1", .vstr "A")]⟩) := by decide

/-- C9 (amended): the snapshot array itself is a copy, and `register`
never mutates an existing record object — it installs a fresh one — so
registration performed after a snapshot is unobservable through that
snapshot; `sensor-data` and `disconnect`, by contrast, mutate the
stored record objects in place and are observable through previously
returned snapshots (see the counterexample). -/
theorem C9_snapshot_shallow_copy (st : ServerState) (sock : SocketInfo)
    (payload : Option Payload) (now fresh : String)
    (h : ∀ q ∈ st.registry, q.2 < st.heap.length) :
    derefSnapshot (handleRegister st sock payload now fresh).1.heap (snapshotRefs st)
      = derefSnapshot st.heap (snapshotRefs st) := by
  simp only [handleRegister, derefSnapshot, snapshotRefs, List.map_map]
  apply List.map_congr_left
  intro q hq
  have hlt := h q hq
  simp [Function.comp, List.getD_eq_getElem?_getD, List.getElem?_append_left hlt]

/-- C9 (amended) applied at a concrete input. -/
theorem C9_snapshot_shallow_copy_witness :
    (∀ q ∈ ([(.vstr "A", 0)] : List (JSVal × Nat)),
      q.2 < ([⟨.vstr "A", "ip1", some "s1", "t1", .vnull, .vnull⟩] : List DeviceRec).length) ∧
    derefSnapshot (handleRegister
        ⟨[⟨.vstr "A", "ip1", some "s1", "t1", .vnull, .vnull⟩], [(.vstr "A", 0)], []⟩
        ⟨"s2", "ip2"⟩ (some { deviceId := .vstr "A" }) "t2" "f2").1.heap
      (snapshotRefs
        ⟨[⟨.vstr "A", "ip1", some "s1", "t1", .vnull, .vnull⟩], [(.vstr "A", 0)], []⟩)
      = derefSnapshot [⟨.vstr "A", "ip1", some "s1", "t1", .vnull, .vnull⟩]
          (snapshotRefs
            ⟨[⟨.vstr "A", "ip1", some "s1", "t1", .vnull, .vnull⟩], [(.vstr "A", 0)], []⟩) :=
  ⟨by decide,
    C9_snapshot_shallow_copy
      ⟨[⟨.vstr "A", "ip1", some "s1", "t1", .vnull, .vnull⟩], [(.vstr "A", 0)], []⟩
      ⟨"s2", "ip2"⟩ (some { deviceId := .vstr "A" }) "t2" "f2" (by decide)⟩

/-- Whether an event is a `register` message arriving on socket `sid`. -/
def isRegisterOf (sid : String) : Event → Bool
  | .register s _ _ _ _ => s == sid
  | _ => false

theorem bind_none_step (st : ServerState) (e : Event) (sid : String)
    (h0 : bindGet st.binds sid = none) (he : isRegisterOf sid e = false) :
    bindGet (step st e).1.binds sid = none := by
  cases e with
  | connect s i ro => exact h0
  | register s i p now fresh =>
    have hs : s ≠ sid := by simpa [isRegisterOf, beq_eq_false_iff_ne] using he
    simp only [step]
    rw [binds_register, bindGet_bindSet_ne hs]
    exact h0
  | sensor s i p now fresh =>
    simp only [step]
    rw [binds_handleSensorData]
    exact h0
  | disconnect s i now =>
    simp only [step]
    rw [binds_handleDisconnect]
    exact h0

theorem bind_none_run (sid : String) :
    ∀ (es : List Event) (st : ServerState), bindGet st.binds sid = none →
      (∀ e ∈ es, isRegisterOf sid e = false) →
      bindGet (run st es).binds sid = none := by
  intro es
  induction es with
  | nil => intro st h0 _; exact h0
  | cons e tl ih =>
    intro st h0 hes
    have h1 := bind_none_step st e sid h0 (hes e (List.mem_cons_self _ _))
    have hr : run st (e :: tl) = run ((step st e).1) tl := rfl
    rw [hr]
    exact ih _ h1 (fun e' he' => hes e' (List.mem_cons_of_mem _ he'))

/-- C10: a connection that never sent a `register` (so its
`socket.data.deviceId` was never written) may send any events,
including samples; afterwards its disconnect leaves the whole server
state unchanged — no record's handle is cleared, no `lastSeen` touched
— and emits nothing, so no `devices` broadcast is triggered and the
record its samples created keeps its last stored handle. -/
theorem C10_unregistered_disconnect_noop (st : ServerState) (es : List Event)
    (sock : SocketInfo) (now : String)
    (h0 : bindGet st.binds sock.sid = none)
    (hes : ∀ e ∈ es, isRegisterOf sock.sid e = false) :
    bindGet (run st es).binds sock.sid = none ∧
    handleDisconnect (run st es) sock now = (run st es, []) := by
  have key := bind_none_run sock.sid es st h0 hes
  refine ⟨key, ?_⟩
  have hb : bindVal (run st es) sock.sid = .vundef := by simp [bindVal, key]
  simp [handleDisconnect, hb, truthy]

/-- C10 applied at a concrete input: a connection that only sent one
sample; its disconnect changes nothing and emits nothing. -/
theorem C10_unregistered_disconnect_noop_witness :
    bindGet (ServerState.empty).binds "s1" = none ∧
    (∀ e ∈ [Event.sensor "s1" "ip" (some { deviceId := .vstr "A" }) "t1" "f1"],
      isRegisterOf "s1" e = false) ∧
    handleDisconnect
        (run ServerState.empty
          [.sensor "s1" "ip" (some { deviceId := .vstr "A" }) "t1" "f1"])
        ⟨"s1", "ip"⟩ "t2"
      = (run ServerState.empty
          [.sensor "s1" "ip" (some { deviceId := .vstr "A" }) "t1" "f1"], []) :=
  ⟨by decide, by decide,
    (C10_unregistered_disconnect_noop ServerState.empty
      [.sensor "s1" "ip" (some { deviceId := .vstr "A" }) "t1" "f1"] ⟨"s1", "ip"⟩ "t2"
      (by decide) (by decide)).2⟩

end Surface
